import Mathlib

/-!
Verification development for the corpus_wrangler repository
(src/corpus_wrangler/wikimedia.py).

The Python source is shallowly embedded: file names are modelled as
`List Char` (the names handled by this program are ASCII, so Python's
`str.isnumeric` test coincides with `Char.isDigit` on this domain),
pandas data frames holding file records are modelled as lists of typed
rows, and Python `dict`s are modelled as insertion-ordered association
lists.  Code paths that raise exceptions (`KeyError`, `AttributeError`,
the `astype` failure on a column-less frame) are modelled with `Except`
or `Option` results.
-/

/-- Convert a string literal to the `List Char` representation used
throughout this development. -/
def str (s : String) : List Char := s.toList

/-- `dropPre p l` removes the prefix `p` from `l`, returning `none` when `l`
does not start with `p`.  Used to model Python's `str.startswith` and the
anchored literal parts of the regular expressions in
`_parse_wiki_file_names`. -/
def dropPre : List Char → List Char → Option (List Char)
  | [], l => some l
  | _ :: _, [] => none
  | p :: ps, c :: cs => if p = c then dropPre ps cs else none

/-- Python `name.startswith(p)`. -/
def isPre (p l : List Char) : Bool := (dropPre p l).isSome

/-- Python `needle in hay` (substring containment). -/
def hasSub (n : List Char) : List Char → Bool
  | [] => n.isEmpty
  | c :: rest => isPre n (c :: rest) || hasSub n rest

/-- Model of the regex part `-p\d+p\d+$`: the remainder is `-p`, one or
more digits, `p`, one or more digits, end of string. -/
def pageRange : List Char → Bool
  | '-' :: 'p' :: rest =>
    let a := rest.takeWhile Char.isDigit
    match rest.dropWhile Char.isDigit with
    | 'p' :: b => !a.isEmpty && !b.isEmpty && b.all Char.isDigit
    | _ => false
  | _ => false

/-- Model of the regex alternation `(\d|\d\d)` followed by whatever the
continuation `k` accepts: either one digit and then `k`, or two digits and
then `k`. -/
def shardTail (k : List Char → Bool) : List Char → Bool
  | [] => false
  | c :: rest =>
    c.isDigit &&
      (k rest ||
        (match rest with
         | c2 :: rest2 => c2.isDigit && k rest2
         | [] => false))

/-- Model of `re.match(r"^PRE(\d|\d\d)EXT-p\d+p\d+$", name)` where `PRE` is
the literal prefix and `EXT` is `.xml` or `.txt`. -/
def shapedRange (pre ext name : List Char) : Bool :=
  match dropPre pre name with
  | some rest =>
    shardTail
      (fun r =>
        match dropPre ext r with
        | some r2 => pageRange r2
        | none => false)
      rest
  | none => false

/-- Model of `re.match(r"^PRE(\d|\d\d)EXT$", name)`. -/
def shapedExact (pre ext name : List Char) : Bool :=
  match dropPre pre name with
  | some rest => shardTail (fun r => r == ext) rest
  | none => false

/-- The content descriptor: the boolean columns of
`CorpusFiles._description_columns_types`. -/
structure Descr where
  pages : Bool := false
  stubs : Bool := false
  logging : Bool := false
  abstracts : Bool := false
  sql : Bool := false
  checksum : Bool := false
  titles : Bool := false
  namespaces : Bool := false
  articles : Bool := false
  index : Bool := false
  rev_metadata : Bool := false
  current : Bool := false
  history : Bool := false
  set : Bool := false
  indexed : Bool := false
deriving DecidableEq, Repr

/-- `CorpusFiles._descriptions_init`: every flag `False`. -/
def descInit : Descr := {}

/-- `any(features.values())`. -/
def Descr.anyFlag (d : Descr) : Bool :=
  d.pages || d.stubs || d.logging || d.abstracts || d.sql || d.checksum ||
  d.titles || d.namespaces || d.articles || d.index || d.rev_metadata ||
  d.current || d.history || d.set || d.indexed

/-- `_parse_wiki_file_names(name, description)`.  The Python function
mutates a dict along an `if/elif` cascade; each leaf below is the final
state of that dict on the corresponding control path, starting from
`_descriptions_init` (all `False`). -/
def classify (name : List Char) : Descr :=
  if isPre (str "pages") name then
    if isPre (str "pages-meta") name then
      if isPre (str "pages-meta-history") name then
        if shapedRange (str "pages-meta-history") (str ".xml") name then
          { descInit with pages := true, rev_metadata := true, history := true, set := true }
        else
          { descInit with pages := true, rev_metadata := true, history := true }
      else if isPre (str "pages-meta-current") name then
        if shapedRange (str "pages-meta-current") (str ".xml") name then
          { descInit with pages := true, rev_metadata := true, current := true, set := true }
        else
          { descInit with pages := true, rev_metadata := true, current := true }
      else
        { descInit with pages := true, rev_metadata := true }
    else if isPre (str "pages-articles") name then
      if isPre (str "pages-articles-multistream") name then
        if shapedRange (str "pages-articles-multistream") (str ".xml") name then
          { descInit with pages := true, articles := true, indexed := true, set := true }
        else if isPre (str "pages-articles-multistream-index") name then
          if shapedRange (str "pages-articles-multistream-index") (str ".txt") name then
            { descInit with pages := true, articles := true, indexed := true,
                            index := true, set := true }
          else
            { descInit with pages := true, articles := true, indexed := true, index := true }
        else
          { descInit with pages := true, articles := true, indexed := true }
      else if shapedRange (str "pages-articles") (str ".xml") name then
        { descInit with pages := true, articles := true, set := true }
      else
        { descInit with pages := true, articles := true }
    else if isPre (str "pages-logging") name then
      if shapedExact (str "pages-logging") (str ".xml") name then
        { descInit with pages := true, logging := true, set := true }
      else
        { descInit with pages := true, logging := true }
    else
      { descInit with pages := true }
  else if isPre (str "stub") name then
    if isPre (str "stub-articles") name then
      if shapedExact (str "stub-articles") (str ".xml") name then
        { descInit with articles := true, set := true }
      else
        { descInit with articles := true }
    else if isPre (str "stub-meta") name then
      if isPre (str "stub-meta-current") name then
        if shapedExact (str "stub-meta-current") (str ".xml") name then
          { descInit with rev_metadata := true, current := true, set := true }
        else
          { descInit with rev_metadata := true, current := true }
      else if isPre (str "stub-meta-history") name then
        if shapedExact (str "stub-meta-history") (str ".xml") name then
          { descInit with rev_metadata := true, history := true, set := true }
        else
          { descInit with rev_metadata := true, history := true }
      else
        { descInit with rev_metadata := true }
    else
      descInit
  else if isPre (str "abstract") name then
    if shapedExact (str "abstract") (str ".xml") name then
      { descInit with abstracts := true, set := true }
    else
      { descInit with abstracts := true }
  else if hasSub (str ".sql") name then
    { descInit with sql := true }
  else if name == str "md5sums" || name == str "sha1sums" then
    { descInit with checksum := true }
  else if isPre (str "all-titles") name then
    { descInit with titles := true }
  else if name == str "siteinfo-namespaces.json" then
    { descInit with namespaces := true }
  else
    descInit

/-- Split a character list at the first `'-'`; the second component is the
remainder after the dash when one was found.  Building block for Python's
`name.split('-', 2)`. -/
def breakDash : List Char → List Char × Option (List Char)
  | [] => ([], none)
  | c :: rest =>
    if c = '-' then ([], some rest)
    else
      let (a, r) := breakDash rest
      (c :: a, r)

/-- Python `name.split('-', 2)`: at most three parts; the third component
is the raw remainder (which may itself contain dashes). -/
def split2 (name : List Char) : List Char × Option (List Char × Option (List Char)) :=
  match breakDash name with
  | (p0, none) => (p0, none)
  | (p0, some r1) =>
    match breakDash r1 with
    | (p1, none) => (p0, some (p1, none))
    | (p1, some r2) => (p0, some (p1, some r2))

/-- `_parse_dump_info(name)`, with the module-level `_known_wikis` list
passed explicitly.  Python's `str.isnumeric` is modelled by
`Char.isDigit`, which agrees with it on the ASCII names this program
handles. -/
def parseDumpInfo (known : List (List Char)) (name : List Char) :
    Option (List Char) × Option (List Char) × Option (List Char) :=
  let (p0, r) := split2 name
  if known.contains p0 then
    match r with
    | some (p1, r2) =>
      if p1.length == 8 && p1.all Char.isDigit then
        match r2 with
        | some p2 => (some p0, some p1, some p2)
        | none => (some p0, some p1, none)
      else (some p0, none, none)
    | none => (some p0, none, none)
  else (none, none, none)

/-- `os.path.splitext` restricted to a base name without path separators:
split off the suffix starting at the last dot, unless every character
before that dot is itself a dot. -/
def splitExt (name : List Char) : List Char × List Char :=
  match List.span (fun c => c ≠ '.') name.reverse with
  | (extRev, '.' :: baseRev) =>
    let base := baseRev.reverse
    if base.any (fun c => c ≠ '.') then (base, '.' :: extRev.reverse)
    else (name, [])
  | _ => (name, [])

/-- One row of the `file_list` built by `_scan_dir_for_file_sets` /
`_get_file_info`: the seven `_file_info_keys`. -/
structure FileInfo where
  path : List Char
  name : List Char
  fileType : List Char
  size : Nat
  wiki : Option (List Char)
  date : Option (List Char)
  descr : Option (List Char)
deriving DecidableEq, Repr

/-- `_get_file_info(pathname)`, taking the directory part, base file name
and size as the external filesystem metadata. -/
def getFileInfo (known : List (List Char)) (e : List Char × List Char × Nat) : FileInfo :=
  let (nm, ext) := splitExt e.2.1
  let (w, d, r) := parseDumpInfo known nm
  ⟨e.1, nm, ext, e.2.2, w, d, r⟩

/-- A row of a `CorpusFiles` frame: identity columns plus the boolean
description columns (`{**file_dict, **features}` after `wiki`, `date` and
`description` are deleted). -/
structure Row where
  path : List Char
  name : List Char
  fileType : List Char
  size : Nat
  flags : Descr
deriving DecidableEq, Repr

/-- A row of the `UnknownFiles` frame: identity columns plus `wiki` and
`date` (the `description` key is deleted by `UnknownFiles.add_files`). -/
structure URow where
  path : List Char
  name : List Char
  fileType : List Char
  size : Nat
  wiki : Option (List Char)
  date : Option (List Char)
deriving DecidableEq, Repr

def toURow (f : FileInfo) : URow := ⟨f.path, f.name, f.fileType, f.size, f.wiki, f.date⟩

/-- The `UnknownFiles` record.  `files = none` models the initial
`self._files = None`. -/
structure UnknownSt where
  files : Option (List URow)
deriving DecidableEq, Repr

/-- `UnknownFiles.add_files` as called from the scanner: delete the
`description` key from each record and append the rows
(`FileSet._add_rows`). -/
def unkAddFI (u : UnknownSt) (fs : List FileInfo) : UnknownSt :=
  ⟨some (u.files.getD [] ++ fs.map toURow)⟩

/-- Append already-projected unknown rows (the `unknown_list` built inside
`CorpusFiles.add_files`). -/
def unkAddU (u : UnknownSt) (fs : List FileInfo) : UnknownSt :=
  ⟨some (u.files.getD [] ++ fs.map toURow)⟩

/-- The `CorpusFiles` record: its `name` and its frame of rows
(`files = none` models `self._files = None` before the first
`_add_rows`). -/
structure CorpusFilesSt where
  name : List Char
  files : Option (List Row)
deriving DecidableEq, Repr

/-- The exceptions the ingestion pipeline can raise. -/
inductive IngestErr where
  /-- `AttributeError`: `_parse_wiki_file_names` is handed `None` as the
  name (a record whose `description` is missing). -/
  | attrNoneDescr
  /-- `KeyError` from `astype` when the freshly created frame has no
  columns (a brand-new `CorpusFiles` whose batch produced no classified
  rows). -/
  | astypeKey
  /-- `KeyError` from a dict lookup. -/
  | keyErr
deriving DecidableEq, Repr

/-- The per-item loop of `CorpusFiles.add_files`: classify each record,
collecting classified rows and unknown records in input order.  A record
whose `description` is `None` makes `_parse_wiki_file_names` raise. -/
def procBatch : List FileInfo → Except IngestErr (List Row × List FileInfo)
  | [] => .ok ([], [])
  | f :: rest =>
    match f.descr with
    | none => .error .attrNoneDescr
    | some d =>
      let feats := classify d
      match procBatch rest with
      | .error e => .error e
      | .ok (rs, us) =>
        if feats.anyFlag then .ok (⟨f.path, f.name, f.fileType, f.size, feats⟩ :: rs, us)
        else .ok (rs, f :: us)

/-- `CorpusFiles.add_files(file_list, unknowns)`: run the loop, append the
classified rows (`_add_rows`), apply the dtype cast (which raises a
`KeyError` when the frame was just created from an empty row list and so
has no columns), then forward the unknown records. -/
def addFiles (st : CorpusFilesSt) (batch : List FileInfo) (unk : UnknownSt) :
    Except IngestErr (CorpusFilesSt × UnknownSt) :=
  match procBatch batch with
  | .error e => .error e
  | .ok (rows, us) =>
    if st.files.isNone && rows.isEmpty then .error .astypeKey
    else .ok ({ st with files := some (st.files.getD [] ++ rows) }, unkAddU unk us)

/-- `CorpusFiles.__init__(name, file_list, unknowns)`. -/
def mkCorpusFiles (nm : List Char) (batch : List FileInfo) (unk : UnknownSt) :
    Except IngestErr (CorpusFilesSt × UnknownSt) :=
  addFiles ⟨nm, none⟩ batch unk

/-- `FileSet.get_file_count` for a `CorpusFiles` (`None` propagates the
`AttributeError` on a never-filled frame). -/
def cfCount (cf : CorpusFilesSt) : Option Nat := cf.files.map List.length

/-- `CorpusFiles.get_checksum_files`: names of the rows whose `checksum`
flag is true, in frame (= ingestion) order. -/
def chkNames (rows : List Row) : List (List Char) :=
  (rows.filter (fun r => r.flags.checksum)).map (fun r => r.name)

/-- Python `dict` lookup over an insertion-ordered association list. -/
def alook {α : Type} : List (List Char × α) → List Char → Option α
  | [], _ => none
  | (k2, v) :: rest, k => if k2 == k then some v else alook rest k

/-- Python `dict` assignment: replace in place when the key exists,
append at the end otherwise. -/
def setK {α : Type} : List (List Char × α) → List Char → α → List (List Char × α)
  | [], k, v => [(k, v)]
  | (k2, v2) :: rest, k, v =>
    if k2 == k then (k, v) :: rest else (k2, v2) :: setK rest k v

/-- `if wiki not in self._corpora: self._corpora[wiki] = {}`. -/
def ensureK {α : Type} (c : List (List Char × List α)) (k : List Char) :
    List (List Char × List α) :=
  match alook c k with
  | some _ => c
  | none => c ++ [(k, [])]

/-- Strict lexicographic order on character lists (Python string `<`),
used to model the sorted group keys of `pandas.groupby`. -/
def lexLt : List Char → List Char → Bool
  | [], [] => false
  | [], _ :: _ => true
  | _ :: _, [] => false
  | a :: as2, b :: bs => if a < b then true else if a = b then lexLt as2 bs else false

def insertLt {α : Type} (lt : α → α → Bool) (x : α) : List α → List α
  | [] => [x]
  | y :: ys => if lt x y then x :: y :: ys else y :: insertLt lt x ys

def sortWith {α : Type} (lt : α → α → Bool) (l : List α) : List α :=
  l.foldr (insertLt lt) []

def uniq {α : Type} [BEq α] (l : List α) : List α :=
  l.foldl (fun acc x => if acc.contains x then acc else acc ++ [x]) []

/-- The `(wiki, date)` key of a classified record. -/
def keyOf (f : FileInfo) : List Char × List Char := (f.wiki.getD [], f.date.getD [])

def pairLt (a b : List Char × List Char) : Bool :=
  lexLt a.1 b.1 || (a.1 == b.1 && lexLt a.2 b.2)

/-- `file_df.groupby(["wiki", "date"])`: keys in sorted order, rows of
each group in frame order. -/
def groupWD (rows : List FileInfo) : List ((List Char × List Char) × List FileInfo) :=
  (sortWith pairLt (uniq (rows.map keyOf))).map
    (fun k => (k, rows.filter (fun f => keyOf f == k)))

/-- `list(file_df.groupby(["wiki"]).groups)`: the distinct wikis in sorted
order. -/
def wikisOf (rows : List FileInfo) : List (List Char) :=
  sortWith lexLt (uniq (rows.map (fun f => f.wiki.getD [])))

/-- The nested `collection -> date -> CorpusFiles` registry
(`Corpora._corpora`). -/
def CorpMap : Type := List (List Char × List (List Char × CorpusFilesSt))

instance : DecidableEq CorpMap := by
  unfold CorpMap
  infer_instance

/-- The `Corpora` object together with the shared `UnknownFiles`
record. -/
structure Tracker where
  corpora : CorpMap
  unknowns : UnknownSt
deriving DecidableEq

/-- The `for (wiki, date), files in file_df.groupby(["wiki", "date"])`
loop of `_scan_dir_for_file_sets`. -/
def scanGroups :
    List ((List Char × List Char) × List FileInfo) → CorpMap × UnknownSt →
      Except IngestErr (CorpMap × UnknownSt)
  | [], st => .ok st
  | ((w, d), fs) :: rest, (c, u) =>
    match alook c w with
    | none => .error .keyErr
    | some dates =>
      match alook dates d with
      | none =>
        match mkCorpusFiles (w ++ '-' :: d) fs u with
        | .error e => .error e
        | .ok (cf, u2) => scanGroups rest (setK c w (setK dates d cf), u2)
      | some cf =>
        match addFiles cf fs u with
        | .error e => .error e
        | .ok (cf2, u2) => scanGroups rest (setK c w (setK dates d cf2), u2)

/-- `Corpora._scan_dir_for_file_sets(path)`: the entries are the
`(directory, base file name, size)` metadata of the regular files of one
directory, in scan order. -/
def scanDir (known : List (List Char)) (tr : Tracker)
    (entries : List (List Char × List Char × Nat)) : Except IngestErr Tracker :=
  let fl := entries.map (getFileInfo known)
  if fl.isEmpty then .ok tr
  else
    let unknownCnt := (fl.filter (fun f => f.date.isNone)).length
    if unknownCnt = fl.length then .ok { tr with unknowns := unkAddFI tr.unknowns fl }
    else
      let good :=
        if unknownCnt > 0 then fl.filter (fun f => !(f.wiki.isNone || f.date.isNone)) else fl
      let bad :=
        if unknownCnt > 0 then fl.filter (fun f => f.wiki.isNone || f.date.isNone) else []
      let u1 := if unknownCnt > 0 then unkAddFI tr.unknowns bad else tr.unknowns
      let c1 := (wikisOf good).foldl ensureK tr.corpora
      match scanGroups (groupWD good) (c1, u1) with
      | .error e => .error e
      | .ok (c2, u2) => .ok ⟨c2, u2⟩

/-- Python truthiness of an optional-string argument (`if wiki:`): both
`None` and the empty string are falsy. -/
def pyT (o : Option (List Char)) : Bool :=
  match o with
  | some l => !l.isEmpty
  | none => false

/-- Result of `Corpora.get_dumps`: a raised `KeyError`, a list of dump
dates for one wiki, or (for a falsy `wiki` argument) the list of
per-wiki date lists. -/
inductive DumpsRes where
  | keyErr
  | single (dates : List (List Char))
  | all (datess : List (List (List Char)))
deriving DecidableEq, Repr

/-- `Corpora.get_dumps(wiki)`. -/
def getDumps (tr : Tracker) (wiki : Option (List Char)) : DumpsRes :=
  if pyT wiki then
    match alook tr.corpora (wiki.getD []) with
    | some m => .single (m.map (fun p => p.1))
    | none => .keyErr
  else
    .all (tr.corpora.map (fun wp => wp.2.map (fun p => p.1)))

def allSome {α : Type} : List (Option α) → Option (List α)
  | [] => some []
  | none :: _ => none
  | some x :: rest => (allSome rest).map (fun l => x :: l)

/-- Result of `Corpora.get_checksum_files`: a raised `KeyError`, a raised
`AttributeError` (frame never filled), a flat name list (the
`wiki and date` branch), or the nested per-dump lists built by
`files.append(...)` in the other branches. -/
inductive ChkRes where
  | keyErr
  | attrErr
  | flat (names : List (List Char))
  | nested (names : List (List (List Char)))
deriving DecidableEq, Repr

/-- `Corpora.get_checksum_files(wiki, date)`. -/
def getChk (tr : Tracker) (wiki date : Option (List Char)) : ChkRes :=
  if pyT wiki && pyT date then
    match alook tr.corpora (wiki.getD []) with
    | none => .keyErr
    | some m =>
      match alook m (date.getD []) with
      | none => .keyErr
      | some cf =>
        match cf.files with
        | none => .attrErr
        | some rows => .flat (chkNames rows)
  else if pyT wiki then
    match alook tr.corpora (wiki.getD []) with
    | none => .keyErr
    | some m =>
      match allSome (m.map (fun p => p.2.files.map chkNames)) with
      | none => .attrErr
      | some ls => .nested ls
  else
    match allSome ((tr.corpora.map (fun wp => wp.2.map (fun p => p.2.files.map chkNames))).flatten) with
    | none => .attrErr
    | some ls => .nested ls

def sumCounts (l : List (Option Nat)) : Option Nat :=
  match allSome l with
  | none => none
  | some ns => some (ns.foldl (fun a b => a + b) 0)

/-- `Corpora.get_file_count(wiki, date)`; `none` models a raised
exception. -/
def getCount (tr : Tracker) (wiki date : Option (List Char)) : Option Nat :=
  if pyT wiki && pyT date then
    match alook tr.corpora (wiki.getD []) with
    | none => none
    | some m =>
      match alook m (date.getD []) with
      | none => none
      | some cf => cfCount cf
  else if pyT wiki then
    match alook tr.corpora (wiki.getD []) with
    | none => none
    | some m => sumCounts (m.map (fun p => cfCount p.2))
  else
    sumCounts ((tr.corpora.map (fun wp => wp.2.map (fun p => cfCount p.2))).flatten)

/-- Extract the value of a successful ingestion, with a fallback. -/
def exGetD {ε α : Type} (e : Except ε α) (dflt : α) : α :=
  match e with
  | .ok a => a
  | .error _ => dflt

def exIsOk {ε α : Type} (e : Except ε α) : Bool :=
  match e with
  | .ok _ => true
  | .error _ => false

/-- The known-collection set of the §8 scenario. -/
def knownDemo : List (List Char) := [str "enwiki"]

/-- The empty registry of a fresh `Corpora`. -/
def tracker0 : Tracker := ⟨[], ⟨none⟩⟩

/-- The two files of the §8 scenario, as one scanned directory. -/
def demoEntries : List (List Char × List Char × Nat) :=
  [(str "/data", str "enwiki-20201001-md5sums.txt", 10),
   (str "/data", str "enwiki-20201020-md5sums.txt", 20)]

/-- The index after ingesting the §8 scenario into a fresh tracker. -/
def demoTracker : Tracker := exGetD (scanDir knownDemo tracker0 demoEntries) tracker0

/-- The index after scanning the identical directory listing a second
time. -/
def demoTracker2 : Tracker := exGetD (scanDir knownDemo demoTracker demoEntries) tracker0

/-- A well-formed classified record of the `enwiki`/`20201001` dump (the
checksum file of the §8 scenario, after `_get_file_info`). -/
def goodFI : FileInfo :=
  ⟨str "/data", str "enwiki-20201001-md5sums", str ".txt", 10,
    some (str "enwiki"), some (str "20201001"), some (str "md5sums")⟩

/-- A malformed record: its `description` is `None` (the base name
`enwiki-20201001` carries a wiki and date but no remainder), which makes
`_parse_wiki_file_names` raise an `AttributeError`. -/
def badFI : FileInfo :=
  ⟨str "/data", str "enwiki-20201001", str ".xml", 7,
    some (str "enwiki"), some (str "20201001"), none⟩

/-- A directory listing containing a well-formed file and a malformed one
(whose stripped name has no description part). -/
def demoBadEntries : List (List Char × List Char × Nat) :=
  [(str "/data", str "enwiki-20201001-md5sums.txt", 10),
   (str "/data", str "enwiki-20201001.xml", 7)]

/-- The `CorpusFiles` state after ingesting `[goodFI]` once into a fresh
record named `x`. -/
def cfOnce : CorpusFilesSt :=
  ⟨str "x", some [⟨str "/data", str "enwiki-20201001-md5sums", str ".txt", 10,
    { descInit with checksum := true }⟩]⟩

def unkOnce : UnknownSt := ⟨some []⟩

example :
    classify (str "pages-meta-history27.xml-p1000p2000") =
      { descInit with pages := true, rev_metadata := true, history := true, set := true } := by
  decide

example :
    classify (str "md5sums") = { descInit with checksum := true } := by
  decide

example :
    classify (str "sha1sums") = { descInit with checksum := true } := by
  decide

example :
    parseDumpInfo [str "enwiki"] (str "enwiki-20201001-md5sums") =
      (some (str "enwiki"), some (str "20201001"), some (str "md5sums")) := by
  decide

example : splitExt (str "enwiki-20201001-md5sums.txt") =
    (str "enwiki-20201001-md5sums", str ".txt") := by decide

example : splitExt (str "md5sums") = (str "md5sums", str "") := by decide

example : exIsOk (scanDir knownDemo tracker0 demoEntries) = true := by decide

example : getDumps demoTracker (some (str "enwiki")) =
    .single [str "20201001", str "20201020"] := by decide

/-- Claim C6: `classify("pages-articles-multistream-index3.txt-p1p5000")`
yields a descriptor with exactly `pages`, `articles`, `indexed`, `index`
and `set` true and every other flag false. -/
theorem claim_c6 :
    classify (str "pages-articles-multistream-index3.txt-p1p5000") =
      { descInit with pages := true, articles := true, indexed := true,
                      index := true, set := true } := by
  decide

/-- Claim C10: no classification rule ever assigns the `stubs` flag, even
though it is part of the descriptor vocabulary: for every input name the
resulting descriptor has `stubs` false. -/
theorem claim_c10 (name : List Char) : (classify name).stubs = false := by
  unfold classify
  split_ifs <;> rfl

/-- Claim C1: whenever the classifier sets the `set` flag, the coarser
flags of the branch that set it are also true — the descriptor carries one
of the coarse-flag combinations of the ten shaped rules (e.g. `set` via
pages-meta-history comes with `pages`, `rev_metadata` and `history`; via
stub-articles with `articles`; via abstract with `abstracts`). -/
theorem claim_c1 (name : List Char) (h : (classify name).set = true) :
    (((classify name).pages && (classify name).rev_metadata && (classify name).history) ||
     ((classify name).pages && (classify name).rev_metadata && (classify name).current) ||
     ((classify name).pages && (classify name).articles && (classify name).indexed &&
       (classify name).index) ||
     ((classify name).pages && (classify name).articles && (classify name).indexed) ||
     ((classify name).pages && (classify name).articles) ||
     ((classify name).pages && (classify name).logging) ||
     (classify name).articles ||
     ((classify name).rev_metadata && (classify name).current) ||
     ((classify name).rev_metadata && (classify name).history) ||
     (classify name).abstracts) = true := by
  revert h
  unfold classify
  split_ifs <;> decide

theorem claim_c1_witness :
    (classify (str "pages-meta-history1.xml-p1p2")).set = true ∧
    (((classify (str "pages-meta-history1.xml-p1p2")).pages &&
      (classify (str "pages-meta-history1.xml-p1p2")).rev_metadata &&
      (classify (str "pages-meta-history1.xml-p1p2")).history) ||
     ((classify (str "pages-meta-history1.xml-p1p2")).pages &&
      (classify (str "pages-meta-history1.xml-p1p2")).rev_metadata &&
      (classify (str "pages-meta-history1.xml-p1p2")).current) ||
     ((classify (str "pages-meta-history1.xml-p1p2")).pages &&
      (classify (str "pages-meta-history1.xml-p1p2")).articles &&
      (classify (str "pages-meta-history1.xml-p1p2")).indexed &&
      (classify (str "pages-meta-history1.xml-p1p2")).index) ||
     ((classify (str "pages-meta-history1.xml-p1p2")).pages &&
      (classify (str "pages-meta-history1.xml-p1p2")).articles &&
      (classify (str "pages-meta-history1.xml-p1p2")).indexed) ||
     ((classify (str "pages-meta-history1.xml-p1p2")).pages &&
      (classify (str "pages-meta-history1.xml-p1p2")).articles) ||
     ((classify (str "pages-meta-history1.xml-p1p2")).pages &&
      (classify (str "pages-meta-history1.xml-p1p2")).logging) ||
     (classify (str "pages-meta-history1.xml-p1p2")).articles ||
     ((classify (str "pages-meta-history1.xml-p1p2")).rev_metadata &&
      (classify (str "pages-meta-history1.xml-p1p2")).current) ||
     ((classify (str "pages-meta-history1.xml-p1p2")).rev_metadata &&
      (classify (str "pages-meta-history1.xml-p1p2")).history) ||
     (classify (str "pages-meta-history1.xml-p1p2")).abstracts) = true :=
  ⟨by decide, claim_c1 (str "pages-meta-history1.xml-p1p2") (by decide)⟩

/-- Claim C7: the top-level rules form an `if/elif` chain, so a name that
starts with `pages` falls only into the `pages` branch: its descriptor has
`sql` false (even when the name contains `.sql`), and likewise none of the
flags of the other top-level branches (`checksum`, `titles`, `namespaces`,
`abstracts`). -/
theorem claim_c7 (name : List Char) (h : isPre (str "pages") name = true) :
    (classify name).sql = false ∧ (classify name).checksum = false ∧
    (classify name).titles = false ∧ (classify name).namespaces = false ∧
    (classify name).abstracts = false := by
  revert h
  unfold classify
  split_ifs <;> intro h <;> first | decide | simp_all

theorem claim_c7_witness :
    (isPre (str "pages") (str "pages-sub.sql") = true ∧
      hasSub (str ".sql") (str "pages-sub.sql") = true) ∧
    ((classify (str "pages-sub.sql")).sql = false ∧
     (classify (str "pages-sub.sql")).checksum = false ∧
     (classify (str "pages-sub.sql")).titles = false ∧
     (classify (str "pages-sub.sql")).namespaces = false ∧
     (classify (str "pages-sub.sql")).abstracts = false) :=
  ⟨⟨by decide, by decide⟩, claim_c7 (str "pages-sub.sql") (by decide)⟩

/-- Claim C8 counterexample: the claim says the shard number of a shaped
match is optional, so that `"pages-meta-history.xml-p1p2"` (zero shard
digits) would receive `set`; the regex `(\d|\d\d)` in the code requires
one or two digits, and the descriptor of that very name has `set` false
(while the prefix rules did apply: `history` is true). -/
theorem claim_c8_counterexample :
    (classify (str "pages-meta-history.xml-p1p2")).set = false ∧
    (classify (str "pages-meta-history.xml-p1p2")).history = true := by
  decide

theorem dropPre_self_append (p l : List Char) : dropPre p (p ++ l) = some l := by
  induction p with
  | nil => rfl
  | cons c cs ih => simp [dropPre, ih]

theorem isPre_append_of_eq (p v w l : List Char) (h : v = p ++ w) :
    isPre p (v ++ l) = true := by
  subst h
  rw [List.append_assoc]
  unfold isPre
  rw [dropPre_self_append]
  rfl

theorem takeWhile_digits (a b : List Char) (h : a.all Char.isDigit = true) :
    (a ++ 'p' :: b).takeWhile Char.isDigit = a := by
  have hp : Char.isDigit 'p' = false := by decide
  induction a with
  | nil => simp [List.takeWhile_cons, hp]
  | cons c cs ih =>
    simp only [List.all_cons, Bool.and_eq_true] at h
    simp [List.takeWhile_cons, h.1, ih h.2]

theorem dropWhile_digits (a b : List Char) (h : a.all Char.isDigit = true) :
    (a ++ 'p' :: b).dropWhile Char.isDigit = 'p' :: b := by
  have hp : Char.isDigit 'p' = false := by decide
  induction a with
  | nil => simp [List.dropWhile_cons, hp]
  | cons c cs ih =>
    simp only [List.all_cons, Bool.and_eq_true] at h
    simp [List.dropWhile_cons, h.1, ih h.2]

theorem pageRange_ok (a b : List Char) (ha : a ≠ []) (ha2 : a.all Char.isDigit = true)
    (hb : b ≠ []) (hb2 : b.all Char.isDigit = true) :
    pageRange ('-' :: 'p' :: (a ++ 'p' :: b)) = true := by
  have hea : a.isEmpty = false := by cases a with
    | nil => exact absurd rfl ha
    | cons c cs => rfl
  have heb : b.isEmpty = false := by cases b with
    | nil => exact absurd rfl hb
    | cons c cs => rfl
  simp [pageRange, takeWhile_digits a b ha2, dropWhile_digits a b ha2, hea, heb, hb2]

theorem shapedRange_shard1 (pre ext : List Char) (d1 : Char) (a b : List Char)
    (hd1 : d1.isDigit = true) (ha : a ≠ []) (ha2 : a.all Char.isDigit = true)
    (hb : b ≠ []) (hb2 : b.all Char.isDigit = true) :
    shapedRange pre ext (pre ++ d1 :: (ext ++ '-' :: 'p' :: (a ++ 'p' :: b))) = true := by
  unfold shapedRange
  rw [dropPre_self_append]
  simp [shardTail, hd1, dropPre_self_append,
    pageRange_ok a b ha ha2 hb hb2]

theorem shapedRange_shard2 (pre ext : List Char) (d1 d2 : Char) (a b : List Char)
    (hd1 : d1.isDigit = true) (hd2 : d2.isDigit = true)
    (ha : a ≠ []) (ha2 : a.all Char.isDigit = true)
    (hb : b ≠ []) (hb2 : b.all Char.isDigit = true) :
    shapedRange pre ext (pre ++ d1 :: d2 :: (ext ++ '-' :: 'p' :: (a ++ 'p' :: b))) = true := by
  unfold shapedRange
  rw [dropPre_self_append]
  simp [shardTail, hd1, hd2, dropPre_self_append,
    pageRange_ok a b ha ha2 hb hb2]

theorem shapedRange_nodigit (pre ext r : List Char) :
    shapedRange pre ext (pre ++ '.' :: r) = false := by
  unfold shapedRange
  rw [dropPre_self_append]
  have hdot : Char.isDigit '.' = false := by decide
  simp [shardTail, hdot]

/-- Claim C8, amended: in the shaped regular-expression matches the shard
number is required, not optional — one or two digits must follow the known
prefix.  For the pages-meta-history rule this is proved in general: a
shard of one or two digits (with a well-formed page range) receives `set`,
while the same name with zero shard digits (the prefix followed directly
by the dot of the extension) never does; for the other nine shaped rules
the zero-digit form is checked concretely, together with a one-digit
positive form. -/
theorem claim_c8 :
    (∀ (d1 : Char) (a b : List Char), d1.isDigit = true →
      a ≠ [] → a.all Char.isDigit = true → b ≠ [] → b.all Char.isDigit = true →
      (classify (str "pages-meta-history" ++ d1 :: (str ".xml-p" ++ (a ++ 'p' :: b)))).set
        = true) ∧
    (∀ (d1 d2 : Char) (a b : List Char), d1.isDigit = true → d2.isDigit = true →
      a ≠ [] → a.all Char.isDigit = true → b ≠ [] → b.all Char.isDigit = true →
      (classify (str "pages-meta-history" ++ d1 :: d2 :: (str ".xml-p" ++ (a ++ 'p' :: b)))).set
        = true) ∧
    (∀ r : List Char,
      (classify (str "pages-meta-history" ++ '.' :: r)).set = false) ∧
    (classify (str "pages-meta-current.xml-p1p2")).set = false ∧
    (classify (str "pages-meta-current1.xml-p1p2")).set = true ∧
    (classify (str "pages-articles-multistream.xml-p1p2")).set = false ∧
    (classify (str "pages-articles-multistream7.xml-p1p2")).set = true ∧
    (classify (str "pages-articles-multistream-index.txt-p1p5000")).set = false ∧
    (classify (str "pages-articles.xml-p1p2")).set = false ∧
    (classify (str "pages-articles2.xml-p1p2")).set = true ∧
    (classify (str "pages-logging.xml")).set = false ∧
    (classify (str "pages-logging12.xml")).set = true ∧
    (classify (str "stub-articles.xml")).set = false ∧
    (classify (str "stub-articles1.xml")).set = true ∧
    (classify (str "stub-meta-current.xml")).set = false ∧
    (classify (str "stub-meta-history.xml")).set = false ∧
    (classify (str "abstract.xml")).set = false ∧
    (classify (str "abstract9.xml")).set = true := by
  refine ⟨?_, ?_, ?_, ?_⟩
  · intro d1 a b hd1 ha ha2 hb hb2
    have e0 : str ".xml-p" = str ".xml" ++ ['-', 'p'] := by decide
    have e1 : str ".xml-p" ++ (a ++ 'p' :: b) =
        str ".xml" ++ ('-' :: 'p' :: (a ++ 'p' :: b)) := by
      rw [e0, List.append_assoc]
      rfl
    rw [e1]
    have h1 : isPre (str "pages")
        (str "pages-meta-history" ++ d1 :: (str ".xml" ++ '-' :: 'p' :: (a ++ 'p' :: b)))
          = true :=
      isPre_append_of_eq _ _ (str "-meta-history") _ (by decide)
    have h2 : isPre (str "pages-meta")
        (str "pages-meta-history" ++ d1 :: (str ".xml" ++ '-' :: 'p' :: (a ++ 'p' :: b)))
          = true :=
      isPre_append_of_eq _ _ (str "-history") _ (by decide)
    have h3 : isPre (str "pages-meta-history")
        (str "pages-meta-history" ++ d1 :: (str ".xml" ++ '-' :: 'p' :: (a ++ 'p' :: b)))
          = true :=
      isPre_append_of_eq _ _ (str "") _ (by decide)
    have h4 := shapedRange_shard1 (str "pages-meta-history") (str ".xml") d1 a b
      hd1 ha ha2 hb hb2
    simp [classify, h1, h2, h3, h4]
  · intro d1 d2 a b hd1 hd2 ha ha2 hb hb2
    have e0 : str ".xml-p" = str ".xml" ++ ['-', 'p'] := by decide
    have e1 : str ".xml-p" ++ (a ++ 'p' :: b) =
        str ".xml" ++ ('-' :: 'p' :: (a ++ 'p' :: b)) := by
      rw [e0, List.append_assoc]
      rfl
    rw [e1]
    have h1 : isPre (str "pages")
        (str "pages-meta-history" ++ d1 :: d2 :: (str ".xml" ++ '-' :: 'p' :: (a ++ 'p' :: b)))
          = true :=
      isPre_append_of_eq _ _ (str "-meta-history") _ (by decide)
    have h2 : isPre (str "pages-meta")
        (str "pages-meta-history" ++ d1 :: d2 :: (str ".xml" ++ '-' :: 'p' :: (a ++ 'p' :: b)))
          = true :=
      isPre_append_of_eq _ _ (str "-history") _ (by decide)
    have h3 : isPre (str "pages-meta-history")
        (str "pages-meta-history" ++ d1 :: d2 :: (str ".xml" ++ '-' :: 'p' :: (a ++ 'p' :: b)))
          = true :=
      isPre_append_of_eq _ _ (str "") _ (by decide)
    have h4 := shapedRange_shard2 (str "pages-meta-history") (str ".xml") d1 d2 a b
      hd1 hd2 ha ha2 hb hb2
    simp [classify, h1, h2, h3, h4]
  · intro r
    have h1 : isPre (str "pages") (str "pages-meta-history" ++ '.' :: r) = true :=
      isPre_append_of_eq _ _ (str "-meta-history") _ (by decide)
    have h2 : isPre (str "pages-meta") (str "pages-meta-history" ++ '.' :: r) = true :=
      isPre_append_of_eq _ _ (str "-history") _ (by decide)
    have h3 : isPre (str "pages-meta-history") (str "pages-meta-history" ++ '.' :: r)
        = true :=
      isPre_append_of_eq _ _ (str "") _ (by decide)
    have h4 := shapedRange_nodigit (str "pages-meta-history") (str ".xml") r
    simp [classify, h1, h2, h3, h4, descInit]
  · decide

/-- Claim C2 counterexample: after ingesting the two §8 files,
`get_checksum_files("enwiki", "20201001")` returns the stored `name`
column, from which `_get_file_info` had already stripped the `.txt`
extension — the result is `["enwiki-20201001-md5sums"]`, not the claimed
`["enwiki-20201001-md5sums.txt"]`. -/
theorem claim_c2_counterexample :
    getChk demoTracker (some (str "enwiki")) (some (str "20201001")) =
      ChkRes.flat [str "enwiki-20201001-md5sums"] ∧
    getChk demoTracker (some (str "enwiki")) (some (str "20201001")) ≠
      ChkRes.flat [str "enwiki-20201001-md5sums.txt"] := by
  exact ⟨by decide, by decide⟩

/-- Claim C2, amended: ingesting `enwiki-20201001-md5sums.txt` and
`enwiki-20201020-md5sums.txt` into a fresh index succeeds;
`getSnapshots("enwiki")` returns exactly the two dates `20201001` and
`20201020`, `getFileCount("enwiki")` returns 2, and
`getChecksumFiles("enwiki", "20201001")` returns the one-element list of
the recorded base name `["enwiki-20201001-md5sums"]` (the extension is
stripped before the name is stored), in ingestion order. -/
theorem claim_c2 :
    exIsOk (scanDir knownDemo tracker0 demoEntries) = true ∧
    getDumps demoTracker (some (str "enwiki")) =
      DumpsRes.single [str "20201001", str "20201020"] ∧
    getCount demoTracker (some (str "enwiki")) none = some 2 ∧
    getChk demoTracker (some (str "enwiki")) (some (str "20201001")) =
      ChkRes.flat [str "enwiki-20201001-md5sums"] := by
  exact ⟨by decide, by decide, by decide, by decide⟩

/-- Claim C4: querying `get_dumps` or `get_checksum_files` for a
collection (or a collection/date pair) that was never ingested raises a
`KeyError` — a distinct not-found signal — and never produces an
empty-but-valid result. -/
theorem claim_c4 (tr : Tracker) (w d : List Char) (hw : w ≠ []) (hd : d ≠ []) :
    (alook tr.corpora w = none →
      getDumps tr (some w) = DumpsRes.keyErr ∧
      getChk tr (some w) (some d) = ChkRes.keyErr ∧
      ∀ l, getDumps tr (some w) ≠ DumpsRes.single l) ∧
    (∀ m, alook tr.corpora w = some m → alook m d = none →
      getChk tr (some w) (some d) = ChkRes.keyErr ∧
      ∀ l, getChk tr (some w) (some d) ≠ ChkRes.flat l) := by
  have hwe : w.isEmpty = false := by
    cases w with
    | nil => exact absurd rfl hw
    | cons c cs => rfl
  have hde : d.isEmpty = false := by
    cases d with
    | nil => exact absurd rfl hd
    | cons c cs => rfl
  constructor
  · intro hnone
    refine ⟨?_, ?_, ?_⟩
    · simp [getDumps, pyT, hwe, hnone]
    · simp [getChk, pyT, hwe, hde, hnone]
    · intro l
      simp [getDumps, pyT, hwe, hnone]
  · intro m hm hd2
    constructor
    · simp [getChk, pyT, hwe, hde, hm, hd2]
    · intro l
      simp [getChk, pyT, hwe, hde, hm, hd2]

theorem claim_c4_witness :
    ((str "nonexistent-collection") ≠ [] ∧ (str "20201001") ≠ [] ∧
      alook demoTracker.corpora (str "nonexistent-collection") = none) ∧
    ((alook demoTracker.corpora (str "nonexistent-collection") = none →
       getDumps demoTracker (some (str "nonexistent-collection")) = DumpsRes.keyErr ∧
       getChk demoTracker (some (str "nonexistent-collection")) (some (str "20201001")) =
         ChkRes.keyErr ∧
       ∀ l, getDumps demoTracker (some (str "nonexistent-collection")) ≠ DumpsRes.single l) ∧
     (∀ m, alook demoTracker.corpora (str "nonexistent-collection") = some m →
        alook m (str "20201001") = none →
        getChk demoTracker (some (str "nonexistent-collection")) (some (str "20201001")) =
          ChkRes.keyErr ∧
        ∀ l, getChk demoTracker (some (str "nonexistent-collection")) (some (str "20201001")) ≠
          ChkRes.flat l)) :=
  ⟨⟨by decide, by decide, by decide⟩,
    claim_c4 demoTracker (str "nonexistent-collection") (str "20201001")
      (by decide) (by decide)⟩

/-- Claim C5 counterexample: a batch with one malformed record (missing
`description`) makes the whole scan raise; the well-formed file of the
same batch is NOT ingested — there is no per-item isolation. -/
theorem claim_c5_counterexample :
    scanDir knownDemo tracker0 demoBadEntries = Except.error IngestErr.attrNoneDescr ∧
    ∀ tr, scanDir knownDemo tracker0 demoBadEntries ≠ Except.ok tr := by
  have h1 : scanDir knownDemo tracker0 demoBadEntries =
      Except.error IngestErr.attrNoneDescr := by rfl
  refine ⟨h1, ?_⟩
  intro tr h
  rw [h1] at h
  exact Except.noConfusion h

theorem procBatch_err (batch : List FileInfo) (h : ∃ f ∈ batch, f.descr = none) :
    procBatch batch = Except.error IngestErr.attrNoneDescr := by
  induction batch with
  | nil => simp at h
  | cons f rest ih =>
    rcases h with ⟨g, hg, hdg⟩
    rcases List.mem_cons.mp hg with rfl | hrest
    · simp [procBatch, hdg]
    · cases hf : f.descr with
      | none => simp [procBatch, hf]
      | some dsc => simp [procBatch, hf, ih ⟨g, hrest, hdg⟩]

/-- Claim C5, amended: a batch containing a record whose `description` is
missing makes the entire `add_files` call fail with the `AttributeError`
raised inside `_parse_wiki_file_names`; the failure aborts the batch and
no item of it (well-formed or not) is ingested.  The failure does not
identify the offending item. -/
theorem claim_c5 (st : CorpusFilesSt) (unk : UnknownSt) (batch : List FileInfo)
    (h : ∃ f ∈ batch, f.descr = none) :
    addFiles st batch unk = Except.error IngestErr.attrNoneDescr ∧
    ∀ out, addFiles st batch unk ≠ Except.ok out := by
  have hp := procBatch_err batch h
  constructor
  · simp [addFiles, hp]
  · intro out hok
    simp [addFiles, hp] at hok

theorem claim_c5_witness :
    (∃ f ∈ [goodFI, badFI], f.descr = none) ∧
    (addFiles ⟨str "enwiki-20201001", none⟩ [goodFI, badFI] ⟨none⟩ =
       Except.error IngestErr.attrNoneDescr ∧
     ∀ out, addFiles ⟨str "enwiki-20201001", none⟩ [goodFI, badFI] ⟨none⟩ ≠
       Except.ok out) :=
  ⟨by decide, claim_c5 ⟨str "enwiki-20201001", none⟩ ⟨none⟩ [goodFI, badFI] (by decide)⟩

/-- Claim C9: ingestion is append-only — a successful `add_files` leaves
every previously ingested row in place, unaltered, as a prefix of the new
frame — and re-ingesting the identical batch into a fresh `CorpusFiles`
doubles its `get_file_count`.  Concretely, scanning the §8 directory
listing twice doubles the total file count from 2 to 4. -/
theorem claim_c9 :
    (∀ (st : CorpusFilesSt) (unk : UnknownSt) (batch : List FileInfo)
       (out : CorpusFilesSt × UnknownSt),
       addFiles st batch unk = Except.ok out →
       ∃ newRows, out.1.files = some (st.files.getD [] ++ newRows)) ∧
    (∀ (nm : List Char) (batch : List FileInfo) (u0 u1 : UnknownSt) (cf1 : CorpusFilesSt),
       addFiles ⟨nm, none⟩ batch u0 = Except.ok (cf1, u1) →
       ∃ cf2 u2, addFiles cf1 batch u1 = Except.ok (cf2, u2) ∧
         cfCount cf2 = (cfCount cf1).map (fun n => 2 * n)) ∧
    getCount demoTracker none none = some 2 ∧
    getCount demoTracker2 none none = some 4 := by
  refine ⟨?_, ?_, by decide, by decide⟩
  · intro st unk batch out hok
    obtain ⟨o1, o2⟩ := out
    cases hpb : procBatch batch with
    | error e => simp [addFiles, hpb] at hok
    | ok p =>
      obtain ⟨rows, us⟩ := p
      cases hb : (st.files.isNone && rows.isEmpty) with
      | true => simp [addFiles, hpb, hb] at hok
      | false =>
        simp [addFiles, hpb, hb] at hok
        obtain ⟨h1, h2⟩ := hok
        subst h1
        exact ⟨rows, rfl⟩
  · intro nm batch u0 u1 cf1 hok
    cases hpb : procBatch batch with
    | error e => simp [addFiles, hpb] at hok
    | ok p =>
      obtain ⟨rows, us⟩ := p
      cases hb : rows.isEmpty with
      | true => simp [addFiles, hpb, hb] at hok
      | false =>
        simp [addFiles, hpb, hb] at hok
        obtain ⟨h1, h2⟩ := hok
        subst h1
        refine ⟨⟨nm, some (rows ++ rows)⟩, unkAddU u1 us, ?_, ?_⟩
        · simp [addFiles, hpb, hb]
        · simp [cfCount, List.length_append, two_mul]

theorem claim_c9_witness :
    (addFiles ⟨str "x", none⟩ [goodFI] ⟨none⟩ = Except.ok (cfOnce, unkOnce)) ∧
    (∃ cf2 u2, addFiles cfOnce [goodFI] unkOnce = Except.ok (cf2, u2) ∧
       cfCount cf2 = (cfCount cfOnce).map (fun n => 2 * n)) :=
  ⟨by rfl, claim_c9.2.1 (str "x") [goodFI] ⟨none⟩ unkOnce cfOnce (by rfl)⟩

/-- Claim C3: when the first dash-separated part of a name is a known
collection, the second part is treated as a snapshot date exactly when it
exists, has 8 characters and consists of decimal digits; otherwise the
extractor returns `(first, None, None)` — in particular on
`"enwiki-notadate-md5sums"` with known set `{"enwiki"}`. -/
theorem claim_c3 (known : List (List Char)) (name : List Char)
    (h : known.contains (split2 name).1 = true) :
    ((∀ p1 r2, (split2 name).2 = some (p1, r2) →
        p1.length = 8 → p1.all Char.isDigit = true →
        parseDumpInfo known name = (some (split2 name).1, some p1, r2)) ∧
     (∀ p1 r2, (split2 name).2 = some (p1, r2) →
        ¬(p1.length = 8 ∧ p1.all Char.isDigit = true) →
        parseDumpInfo known name = (some (split2 name).1, none, none)) ∧
     ((split2 name).2 = none →
        parseDumpInfo known name = (some (split2 name).1, none, none))) ∧
    parseDumpInfo [str "enwiki"] (str "enwiki-notadate-md5sums") =
      (some (str "enwiki"), none, none) := by
  rcases hsp : split2 name with ⟨p0, r⟩
  rw [hsp] at h
  simp only at h
  simp at h
  refine ⟨⟨?_, ?_, ?_⟩, by decide⟩
  · intro p1 r2 hsnd h8 hdig
    simp only at hsnd
    subst hsnd
    cases r2 <;> simp [parseDumpInfo, hsp, h, h8, hdig]
  · intro p1 r2 hsnd hnot
    simp only at hsnd
    subst hsnd
    have hc : (p1.length == 8 && p1.all Char.isDigit) = false := by
      rcases Bool.eq_false_or_eq_true (p1.length == 8 && p1.all Char.isDigit) with ht | hf
      · rw [Bool.and_eq_true] at ht
        have h8t : p1.length = 8 := by simpa using ht.1
        exact absurd ⟨h8t, ht.2⟩ hnot
      · exact hf
    simp [parseDumpInfo, hsp, h, hc]
  · intro hsnd
    simp only at hsnd
    subst hsnd
    simp [parseDumpInfo, hsp, h]

theorem claim_c3_witness :
    ([str "enwiki"].contains (split2 (str "enwiki-20201001-md5sums")).1 = true) ∧
    ((∀ p1 r2, (split2 (str "enwiki-20201001-md5sums")).2 = some (p1, r2) →
        p1.length = 8 → p1.all Char.isDigit = true →
        parseDumpInfo [str "enwiki"] (str "enwiki-20201001-md5sums") =
          (some (split2 (str "enwiki-20201001-md5sums")).1, some p1, r2)) ∧
     (∀ p1 r2, (split2 (str "enwiki-20201001-md5sums")).2 = some (p1, r2) →
        ¬(p1.length = 8 ∧ p1.all Char.isDigit = true) →
        parseDumpInfo [str "enwiki"] (str "enwiki-20201001-md5sums") =
          (some (split2 (str "enwiki-20201001-md5sums")).1, none, none)) ∧
     ((split2 (str "enwiki-20201001-md5sums")).2 = none →
        parseDumpInfo [str "enwiki"] (str "enwiki-20201001-md5sums") =
          (some (split2 (str "enwiki-20201001-md5sums")).1, none, none))) ∧
    parseDumpInfo [str "enwiki"] (str "enwiki-notadate-md5sums") =
      (some (str "enwiki"), none, none) :=
  ⟨by decide, claim_c3 [str "enwiki"] (str "enwiki-20201001-md5sums") (by decide)⟩

theorem claim_c8_witness :
    (('3' : Char).isDigit = true ∧ (['1'] : List Char) ≠ [] ∧
      (['1'] : List Char).all Char.isDigit = true ∧ (['2'] : List Char) ≠ [] ∧
      (['2'] : List Char).all Char.isDigit = true) ∧
    (classify (str "pages-meta-history" ++ '3' :: (str ".xml-p" ++ (['1'] ++ 'p' :: ['2'])))).set
      = true :=
  ⟨⟨by decide, by decide, by decide, by decide, by decide⟩,
    claim_c8.1 '3' ['1'] ['2'] (by decide) (by decide) (by decide) (by decide) (by decide)⟩

